import Mathlib

/-!
Shallow embedding of the orchestration service in
`src/stack_data/api/app/main.py` (document/image/voice/chat/classify
pipeline), together with the relevant part of the TTS collaborator
(`src/stack_data/tts/app/main.py`).

Conventions of the embedding:
* Byte buffers (`bytes`) are `List Nat` (one entry per byte value).
* Python slicing `b[:n]` is `List.take n`, `b[i:j]` is drop/take.
* Python strings are Lean `String`s; the Python primitives
  `str.strip`, `str.upper`, `str.lower`, `str.split` are modelled
  character-wise (`pyStripL`, `pyUpperChar`, `pyLowerChar`,
  `splitOnChar`) over the character repertoire the program's data
  actually uses (ASCII plus the accented Spanish letters appearing in
  the source constants).
* External collaborators (STT, LLM, LLM-vision, TTS, the office→PDF
  converter and the PDF rasterizer) are oracle functions packaged in a
  `Collab` structure; each endpoint returns its HTTP outcome together
  with the ordered trace of collaborator calls it performed.
-/

/-- Python whitespace characters stripped by `str.strip()`. -/
def pyIsSpace (c : Char) : Bool :=
  c = ' ' || c = '\t' || c = '\n' || c = '\r' || c = '\x0b' || c = '\x0c'

/-- `str.strip()` on a character list: drop whitespace from both ends. -/
def pyStripL (l : List Char) : List Char :=
  ((l.dropWhile pyIsSpace).reverse.dropWhile pyIsSpace).reverse

/-- `str.strip()` on a `String`. -/
def pyStrip (s : String) : String :=
  String.mk (pyStripL s.data)

/-- The lowercase→uppercase table for the repertoire used by the program
(ASCII letters and the Spanish accented letters of the source constants). -/
def upperPairs : List (Char × Char) :=
  [('a', 'A'), ('b', 'B'), ('c', 'C'), ('d', 'D'), ('e', 'E'), ('f', 'F'),
   ('g', 'G'), ('h', 'H'), ('i', 'I'), ('j', 'J'), ('k', 'K'), ('l', 'L'),
   ('m', 'M'), ('n', 'N'), ('o', 'O'), ('p', 'P'), ('q', 'Q'), ('r', 'R'),
   ('s', 'S'), ('t', 'T'), ('u', 'U'), ('v', 'V'), ('w', 'W'), ('x', 'X'),
   ('y', 'Y'), ('z', 'Z'), ('á', 'Á'), ('é', 'É'), ('í', 'Í'), ('ó', 'Ó'),
   ('ú', 'Ú'), ('ñ', 'Ñ')]

/-- The uppercase→lowercase table (the converse of `upperPairs`). -/
def lowerPairs : List (Char × Char) :=
  [('A', 'a'), ('B', 'b'), ('C', 'c'), ('D', 'd'), ('E', 'e'), ('F', 'f'),
   ('G', 'g'), ('H', 'h'), ('I', 'i'), ('J', 'j'), ('K', 'k'), ('L', 'l'),
   ('M', 'm'), ('N', 'n'), ('O', 'o'), ('P', 'p'), ('Q', 'q'), ('R', 'r'),
   ('S', 's'), ('T', 't'), ('U', 'u'), ('V', 'v'), ('W', 'w'), ('X', 'x'),
   ('Y', 'y'), ('Z', 'z'), ('Á', 'á'), ('É', 'é'), ('Í', 'í'), ('Ó', 'ó'),
   ('Ú', 'ú'), ('Ñ', 'ñ')]

/-- `str.upper()` character-wise, on the repertoire of `upperPairs`;
other characters are left unchanged. -/
def pyUpperChar (c : Char) : Char :=
  ((upperPairs.find? (fun p => p.1 == c)).map Prod.snd).getD c

/-- `str.lower()` character-wise, on the repertoire of `lowerPairs`;
other characters are left unchanged. -/
def pyLowerChar (c : Char) : Char :=
  ((lowerPairs.find? (fun p => p.1 == c)).map Prod.snd).getD c

/-- `s.split(sep)` (single-character separator) on character lists. -/
def splitOnChar (sep : Char) : List Char → List (List Char)
  | [] => [[]]
  | c :: cs =>
    let r := splitOnChar sep cs
    if c = sep then [] :: r
    else
      match r with
      | [] => [[c]]
      | h :: t => (c :: h) :: t

/-- `line.split(":", 1)[1]`: everything after the first colon.  Total;
returns `[]` when no colon is present (in the source this expression is
only reached under a guard that guarantees a colon exists). -/
def afterColonL : List Char → List Char
  | [] => []
  | c :: cs => if c = ':' then cs else afterColonL cs

/-- Python's `sep.join(xs)`: `joinSep s [a, b, c] = a ++ s ++ b ++ s ++ c`. -/
def joinSep (sep : String) : List String → String
  | [] => ""
  | [a] => a
  | a :: b :: t => a ++ sep ++ joinSep sep (b :: t)

/-- Python's `needle in hay` on byte buffers: substring search. -/
def bytesContains (hay needle : List Nat) : Bool :=
  match hay with
  | [] => needle.isEmpty
  | _ :: t => needle.isPrefixOf hay || bytesContains t needle

/-! ### FormatSniffer: `detect_file_type` (main.py lines 174-201) -/

/-- `b'%PDF'` -/
def pdfMagic : List Nat := [37, 80, 68, 70]
/-- `b'\x89PNG\r\n\x1a\n'` -/
def pngMagic : List Nat := [137, 80, 78, 71, 13, 10, 26, 10]
/-- `b'\xff\xd8'` -/
def jpegMagic : List Nat := [255, 216]
/-- `b'GIF8'` -/
def gifMagic : List Nat := [71, 73, 70, 56]
/-- `b'RIFF'` -/
def riffMagic : List Nat := [82, 73, 70, 70]
/-- `b'WEBP'` -/
def webpMagic : List Nat := [87, 69, 66, 80]
/-- `b'PK\x03\x04'` -/
def pkMagic : List Nat := [80, 75, 3, 4]
/-- `b'\xd0\xcf\x11\xe0\xa1\xb1\x1a\xe1'` (OLE2) -/
def oleMagic : List Nat := [208, 207, 17, 224, 161, 177, 26, 225]
/-- `b'word/'` -/
def wordMarker : List Nat := [119, 111, 114, 100, 47]
/-- `b'xl/'` -/
def xlMarker : List Nat := [120, 108, 47]
/-- `b'ppt/'` -/
def pptMarker : List Nat := [112, 112, 116, 47]

/-- `detect_file_type(file_bytes)`: magic-byte based format sniffing. -/
def detect_file_type (file_bytes : List Nat) : String :=
  if file_bytes.take 4 = pdfMagic then "pdf"
  else if file_bytes.take 8 = pngMagic then "png"
  else if file_bytes.take 2 = jpegMagic then "jpeg"
  else if file_bytes.take 4 = gifMagic then "gif"
  else if file_bytes.take 4 = riffMagic ∧ ((file_bytes.drop 8).take 4 = webpMagic) then "webp"
  else if file_bytes.take 4 = pkMagic then
    if bytesContains (file_bytes.take 2000) wordMarker then "docx"
    else if bytesContains (file_bytes.take 2000) xlMarker then "xlsx"
    else if bytesContains (file_bytes.take 2000) pptMarker then "pptx"
    else "zip"
  else if file_bytes.take 8 = oleMagic then "doc"
  else "unknown"

/-! ### ClassificationParser: `parse_clasificacion` (main.py lines 325-345) -/

/-- `TIPOS_DOCUMENTO`: the closed 18-value document-type enumeration. -/
def TIPOS_DOCUMENTO : List String :=
  ["CSF", "INE", "Pasaporte", "Título de propiedad", "Recibo de luz",
   "Recibo de agua", "Recibo de gas", "Predial", "Acta constitutiva",
   "Poder notarial", "Comprobante de domicilio", "Estado de cuenta bancario",
   "CURP", "Acta de nacimiento", "Comprobante de ingresos", "Contrato",
   "Factura", "Otro"]

/-- `PROMPT_CLASIFICACION`: the fixed classification prompt. -/
def PROMPT_CLASIFICACION : String :=
  "Analiza este documento y clasifícalo en una de las siguientes categorías:\n"
    ++ joinSep ", " TIPOS_DOCUMENTO
    ++ "\n\nResponde SOLO con el formato:\nTIPO: [categoría]\nCONFIANZA: [alta/media/baja]\nDESCRIPCION: [breve descripción del documento]\n\nSi no puedes identificar el documento, usa \"Otro\" como tipo."

/-- Does the uppercased line start with `TIPO:`? -/
def isTipoKey (lu : List Char) : Bool :=
  "TIPO:".data.isPrefixOf lu

/-- Does the uppercased line start with `CONFIANZA:`? -/
def isConfKey (lu : List Char) : Bool :=
  "CONFIANZA:".data.isPrefixOf lu

/-- Does the uppercased line start with `DESCRIPCION:` or `DESCRIPCIÓN:`? -/
def isDescKey (lu : List Char) : Bool :=
  "DESCRIPCION:".data.isPrefixOf lu || "DESCRIPCIÓN:".data.isPrefixOf lu

/-- One iteration of the `for line in lines` loop of `parse_clasificacion`:
updates the `(tipo, confianza, descripcion)` accumulator from one line. -/
def parseLine (acc : String × String × String) (line : List Char) :
    String × String × String :=
  if isTipoKey (line.map pyUpperChar) then
    (String.mk (pyStripL (afterColonL line)), acc.2.1, acc.2.2)
  else if isConfKey (line.map pyUpperChar) then
    (acc.1, String.mk ((pyStripL (afterColonL line)).map pyLowerChar), acc.2.2)
  else if isDescKey (line.map pyUpperChar) then
    (acc.1, acc.2.1, String.mk (pyStripL (afterColonL line)))
  else acc

/-- `texto.strip().split("\n")`: the lines scanned by `parse_clasificacion`. -/
def linesOf (texto : String) : List (List Char) :=
  splitOnChar '\n' (pyStripL texto.data)

/-- The `(tipo, confianza, descripcion)` triple accumulated by the loop of
`parse_clasificacion`, before the final membership validation of `tipo`. -/
def parseRaw (texto : String) : String × String × String :=
  (linesOf texto).foldl parseLine ("Otro", "baja", texto)

/-- `parse_clasificacion(texto)`: line-based parsing of the LLM
classification answer, with post-parse validation of the type against
`TIPOS_DOCUMENTO`. -/
def parse_clasificacion (texto : String) : String × String × String :=
  let r := parseRaw texto
  (if r.1 ∈ TIPOS_DOCUMENTO then r.1 else "Otro", r.2.1, r.2.2)

/-- Modelled from the spec: rendering a classification record back into
the `TIPO:/CONFIANZA:/DESCRIPCION:` line format that the classification
prompt requests (the source has no renderer; this is the normalized
record text the spec's idempotence property quantifies over). -/
def render_clasificacion (r : String × String × String) : String :=
  "TIPO: " ++ r.1 ++ "\nCONFIANZA: " ++ r.2.1 ++ "\nDESCRIPCION: " ++ r.2.2

/-! ### Response models and collaborator oracles -/

deriving instance DecidableEq for Except

/-- HTTP error outcome (`HTTPException(status_code, detail)`). -/
structure HErr where
  status : Nat
  detail : String
deriving DecidableEq, Repr

/-- `ChatResponse` pydantic model: the uniform three-field reply. -/
structure ChatResponse where
  texto : String
  audio_b64 : String
  idioma : String
deriving DecidableEq, Repr

/-- `ClassifyResponse` pydantic model. -/
structure ClassifyResponse where
  tipo_documento : String
  confianza : String
  descripcion : String
  texto : String
  audio_b64 : String
  idioma : String
deriving DecidableEq, Repr

/-- Field names and values of a serialized `ChatResponse`, in pydantic
declaration order. -/
def ChatResponse.fields (r : ChatResponse) : List (String × String) :=
  [("texto", r.texto), ("audio_b64", r.audio_b64), ("idioma", r.idioma)]

/-- Field names and values of a serialized `ClassifyResponse`, in pydantic
declaration order. -/
def ClassifyResponse.fields (r : ClassifyResponse) : List (String × String) :=
  [("tipo_documento", r.tipo_documento), ("confianza", r.confianza),
   ("descripcion", r.descripcion), ("texto", r.texto),
   ("audio_b64", r.audio_b64), ("idioma", r.idioma)]

/-- One external collaborator invocation, as recorded in an endpoint's
call trace (in invocation order). -/
inductive ExtCall where
  /-- `call_stt(audio_bytes, filename)` -/
  | sttCall (audio : List Nat)
  /-- `call_llm(texto, system_prompt)` -/
  | llmCall (texto : String) (system_prompt : Option String)
  /-- `call_llm_vision(image_b64, prompt)` -/
  | visionCall (image_b64 : String) (prompt : String)
  /-- `call_tts(texto, idioma)` -/
  | ttsCall (texto : String) (idioma : String)
  /-- `office_to_pdf(file_bytes, file_type)` (external converter process) -/
  | officeCall (file_bytes : List Nat)
deriving DecidableEq, Repr

/-- Oracles for the external collaborators and local converters.  Each is a
pure function: the embedding studies one fixed (arbitrary) behaviour of the
collaborators per theorem. -/
structure Collab where
  /-- STT response fields `texto` and `idioma` (a JSON field may be absent). -/
  stt : List Nat → Option String × Option String
  /-- Text-LLM response content for `(texto, system_prompt)`. -/
  llm : String → Option String → String
  /-- Vision-LLM response content for `(image_b64, prompt)`. -/
  vision : String → String → String
  /-- TTS WAV bytes for `(texto, idioma)`. -/
  tts : String → String → List Nat
  /-- `office_to_pdf`: converted PDF bytes. -/
  office : List Nat → List Nat
  /-- `pdf_to_images`: page images (PNG bytes), in physical page order. -/
  pdfImages : List Nat → List (List Nat)
  /-- `image_to_base64`: base64 of an image byte buffer. -/
  b64 : List Nat → String
  /-- `wav_to_ogg_base64`: OGG transcoding plus base64 of WAV bytes. -/
  ogg : List Nat → String

/-- Python `x or default` on an optional string (`None` and `""` are falsy). -/
def pyOrStr (x : Option String) (d : String) : String :=
  match x with
  | none => d
  | some s => if s = "" then d else s

/-! ### PipelineController: the five endpoints (with collaborator traces)

Each endpoint function returns the HTTP outcome (`Except HErr _`) paired
with the ordered list of external collaborator calls it performed.  Only
the success path of each collaborator is modelled (a collaborator HTTP
failure raises and aborts, which no claim here quantifies over). -/

/-- `POST /chat` (main.py lines 366-396).  `idioma` is the optional request
field (`request.idioma or "es"` picks the language). -/
def chat (C : Collab) (texto : String) (idioma : Option String)
    (system_prompt : Option String) : Except HErr ChatResponse × List ExtCall :=
  if pyStrip texto = "" then
    (Except.error ⟨400, "El texto no puede estar vacío"⟩, [])
  else
    let idi := pyOrStr idioma "es"
    let respuesta_texto := C.llm texto system_prompt
    let calls := [ExtCall.llmCall texto system_prompt]
    if respuesta_texto = "" then
      (Except.error ⟨500, "LLM no generó respuesta"⟩, calls)
    else
      let wav := C.tts respuesta_texto idi
      (Except.ok ⟨respuesta_texto, C.ogg wav, idi⟩,
       calls ++ [ExtCall.ttsCall respuesta_texto idi])

/-- `POST /voice` (main.py lines 399-437): STT, then LLM, then TTS using
the STT-detected language (`stt_result.get("idioma", "es")`). -/
def voice (C : Collab) (audio : List Nat) :
    Except HErr ChatResponse × List ExtCall :=
  if audio = [] then
    (Except.error ⟨400, "Archivo de audio vacío"⟩, [])
  else
    let stt := C.stt audio
    let texto_usuario := stt.1.getD ""
    let idioma := stt.2.getD "es"
    let calls := [ExtCall.sttCall audio]
    if texto_usuario = "" then
      (Except.error ⟨400, "No se pudo transcribir el audio"⟩, calls)
    else
      let respuesta_texto := C.llm texto_usuario none
      let calls := calls ++ [ExtCall.llmCall texto_usuario none]
      if respuesta_texto = "" then
        (Except.error ⟨500, "LLM no generó respuesta"⟩, calls)
      else
        (Except.ok ⟨respuesta_texto, C.ogg (C.tts respuesta_texto idioma), idioma⟩,
         calls ++ [ExtCall.ttsCall respuesta_texto idioma])

/-- `POST /image` (main.py lines 440-475).  `idioma` is the form field
(`Form(default="es")`): `none` models an omitted field. -/
def image (C : Collab) (imagen : List Nat) (prompt : String)
    (idioma : Option String) : Except HErr ChatResponse × List ExtCall :=
  let idi := idioma.getD "es"
  if imagen = [] then
    (Except.error ⟨400, "Archivo de imagen vacío"⟩, [])
  else
    let image_b64 := C.b64 imagen
    let respuesta_texto := C.vision image_b64 prompt
    let calls := [ExtCall.visionCall image_b64 prompt]
    if respuesta_texto = "" then
      (Except.error ⟨500, "LLM Vision no generó respuesta"⟩, calls)
    else
      (Except.ok ⟨respuesta_texto, C.ogg (C.tts respuesta_texto idi), idi⟩,
       calls ++ [ExtCall.ttsCall respuesta_texto idi])

/-- The `for i, img_bytes in enumerate(images)` loop of the `/document`
PDF branch (main.py lines 512-517), started at index `i`: produces the
`resultados` list and the vision-call trace, in page order. -/
def pdfLoop (C : Collab) (prompt : String) :
    List (List Nat) → Nat → List String × List ExtCall
  | [], _ => ([], [])
  | img :: rest, i =>
    let image_b64 := C.b64 img
    let page_prompt := "Página " ++ toString (i + 1) ++ ": " ++ prompt
    let resultado := C.vision image_b64 page_prompt
    let r := pdfLoop C prompt rest (i + 1)
    (("--- Página " ++ toString (i + 1) ++ " ---\n" ++ resultado) :: r.1,
     ExtCall.visionCall image_b64 page_prompt :: r.2)

/-- The office-format subtypes routed through `office_to_pdf`. -/
def officeTypes : List String := ["docx", "doc", "xlsx", "xls", "pptx", "ppt"]

/-- The image subtypes analyzed directly by `/document` and `/classify`. -/
def imageTypes : List String := ["png", "jpeg", "gif", "webp"]

/-- `POST /document` (main.py lines 478-547). -/
def document (C : Collab) (archivo : List Nat) (prompt : String)
    (idioma : Option String) : Except HErr ChatResponse × List ExtCall :=
  let idi := idioma.getD "es"
  if archivo = [] then
    (Except.error ⟨400, "Archivo vacío"⟩, [])
  else
    let ft0 := detect_file_type archivo
    let file_bytes := if ft0 ∈ officeTypes then C.office archivo else archivo
    let file_type := if ft0 ∈ officeTypes then "pdf" else ft0
    let calls0 := if ft0 ∈ officeTypes then [ExtCall.officeCall archivo] else []
    if file_type = "pdf" then
      let images := C.pdfImages file_bytes
      if images = [] then
        (Except.error ⟨400, "No se pudieron extraer páginas del PDF"⟩, calls0)
      else
        let loop := pdfLoop C prompt images 0
        let respuesta_texto := joinSep "\n\n" loop.1
        let calls := calls0 ++ loop.2
        if respuesta_texto = "" then
          (Except.error ⟨500, "LLM Vision no generó respuesta"⟩, calls)
        else
          (Except.ok ⟨respuesta_texto, C.ogg (C.tts respuesta_texto idi), idi⟩,
           calls ++ [ExtCall.ttsCall respuesta_texto idi])
    else if file_type ∈ imageTypes then
      let image_b64 := C.b64 file_bytes
      let respuesta_texto := C.vision image_b64 prompt
      let calls := calls0 ++ [ExtCall.visionCall image_b64 prompt]
      if respuesta_texto = "" then
        (Except.error ⟨500, "LLM Vision no generó respuesta"⟩, calls)
      else
        (Except.ok ⟨respuesta_texto, C.ogg (C.tts respuesta_texto idi), idi⟩,
         calls ++ [ExtCall.ttsCall respuesta_texto idi])
    else
      (Except.error ⟨400,
        "Tipo de archivo no soportado. Use PDF, Office (DOCX, XLSX, PPTX) o imágenes"⟩,
       calls0)

/-- The page-image selection step of `POST /classify` (main.py lines
582-603): office conversion and sniffing already applied, picks the
base64 image to classify (the first PDF page, or the image itself), or
the 400 error that aborts the request. -/
def classify_step (C : Collab) (file_bytes : List Nat) (file_type : String) :
    Except HErr String :=
  if file_type = "pdf" then
    match C.pdfImages file_bytes with
    | [] => Except.error (⟨400, "No se pudieron extraer páginas del PDF"⟩ : HErr)
    | img :: _ => Except.ok (C.b64 img)
  else if file_type ∈ imageTypes then Except.ok (C.b64 file_bytes)
  else
    Except.error ⟨400,
      "Tipo de archivo no soportado. Use PDF, Office (DOCX, XLSX, PPTX) o imágenes"⟩

/-- `POST /classify` (main.py lines 550-631): only the first page is
analyzed, with the fixed classification prompt, and the parsed record is
reported over a templated summary sentence. -/
def classify (C : Collab) (archivo : List Nat) (idioma : Option String) :
    Except HErr ClassifyResponse × List ExtCall :=
  let idi := idioma.getD "es"
  if archivo = [] then
    (Except.error ⟨400, "Archivo vacío"⟩, [])
  else
    let ft0 := detect_file_type archivo
    let file_bytes := if ft0 ∈ officeTypes then C.office archivo else archivo
    let file_type := if ft0 ∈ officeTypes then "pdf" else ft0
    let calls0 := if ft0 ∈ officeTypes then [ExtCall.officeCall archivo] else []
    match classify_step C file_bytes file_type with
    | Except.error e => (Except.error e, calls0)
    | Except.ok image_b64 =>
      let respuesta_raw := C.vision image_b64 PROMPT_CLASIFICACION
      let calls := calls0 ++ [ExtCall.visionCall image_b64 PROMPT_CLASIFICACION]
      if respuesta_raw = "" then
        (Except.error ⟨500, "LLM Vision no generó respuesta"⟩, calls)
      else
        let r := parse_clasificacion respuesta_raw
        let texto_audio := "Documento identificado como " ++ r.1 ++ ". " ++ r.2.2
        (Except.ok ⟨r.1, r.2.1, r.2.2, texto_audio,
                    C.ogg (C.tts texto_audio idi), idi⟩,
         calls ++ [ExtCall.ttsCall texto_audio idi])

/-! ### TTS collaborator: language resolution (tts/app/main.py line 130) -/

/-- `idioma_solicitado = entrada.idioma or detectar_idioma(entrada.texto)`:
the TTS service's choice between the supplied tag and its own automatic
language detection (`detectado` is whatever `detectar_idioma` would
return).  Auto-detection is exercised exactly when the supplied tag is
`None` or the empty string. -/
def tts_idioma_solicitado (idioma : Option String) (detectado : String) : String :=
  match idioma with
  | none => detectado
  | some s => if s = "" then detectado else s

/-! ### Helper lemmas -/

lemma take_eq_of_take_eq {fb : List Nat} {n : Nat} {l : List Nat}
    (h : fb.take n = l) {m : Nat} (hmn : m ≤ n) : fb.take m = l.take m := by
  rw [← h, List.take_take, Nat.min_eq_left hmn]

lemma take_ne {fb : List Nat} {m n : Nat} {l l' : List Nat} (h : fb.take m = l)
    (hmn : m ≤ n) (hne : l'.take m ≠ l) : fb.take n ≠ l' := fun he => by
  have h2 := take_eq_of_take_eq he hmn
  rw [h] at h2
  exact hne h2.symm

lemma take_ne' {fb : List Nat} {m n : Nat} {l : List Nat} (h : fb.take n = l)
    (hmn : m ≤ n) (l' : List Nat) (hne : l.take m ≠ l') : fb.take m ≠ l' := by
  rw [take_eq_of_take_eq h hmn]; exact hne

lemma splitOnChar_ne_nil (sep : Char) (l : List Char) : splitOnChar sep l ≠ [] := by
  cases l with
  | nil => simp [splitOnChar]
  | cons c cs =>
    simp only [splitOnChar]
    split
    · simp
    · split <;> simp

lemma mem_splitOnChar_not_mem (sep : Char) (xs : List Char) :
    ∀ l ∈ splitOnChar sep xs, sep ∉ l := by
  induction xs with
  | nil =>
    intro l hl
    simp [splitOnChar] at hl
    simp [hl]
  | cons c cs ih =>
    intro l hl
    simp only [splitOnChar] at hl
    by_cases hc : c = sep
    · rw [if_pos hc] at hl
      rcases List.mem_cons.mp hl with h | h
      · simp [h]
      · exact ih l h
    · rw [if_neg hc] at hl
      rcases hr : splitOnChar sep cs with _ | ⟨h0, t0⟩
      · exact absurd hr (splitOnChar_ne_nil sep cs)
      · rw [hr] at hl
        rcases List.mem_cons.mp hl with h | h
        · subst h
          intro hmem
          rcases List.mem_cons.mp hmem with h | h
          · exact hc h.symm
          · exact ih h0 (by rw [hr]; exact List.mem_cons_self _ _) h
        · exact ih l (by rw [hr]; exact List.mem_cons_of_mem _ h)

lemma splitOnChar_no_sep (sep : Char) (l : List Char) (h : sep ∉ l) :
    splitOnChar sep l = [l] := by
  induction l with
  | nil => rfl
  | cons c cs ih =>
    have hc : ¬c = sep := fun he => h (by simp [he])
    have hcs : sep ∉ cs := fun hm => h (List.mem_cons_of_mem _ hm)
    simp only [splitOnChar, if_neg hc, ih hcs]

lemma splitOnChar_append_cons (sep : Char) (xs ys : List Char) (h : sep ∉ xs) :
    splitOnChar sep (xs ++ sep :: ys) = xs :: splitOnChar sep ys := by
  induction xs with
  | nil => simp [splitOnChar]
  | cons c cs ih =>
    have hc : ¬c = sep := fun he => h (by simp [he])
    have hcs : sep ∉ cs := fun hm => h (List.mem_cons_of_mem _ hm)
    simp only [List.cons_append, splitOnChar, if_neg hc, List.append_eq, ih hcs]

lemma afterColonL_sublist (l : List Char) : List.Sublist (afterColonL l) l := by
  induction l with
  | nil => simp [afterColonL]
  | cons c cs ih =>
    simp only [afterColonL]
    split
    · exact List.sublist_cons_self c cs
    · exact ih.trans (List.sublist_cons_self c cs)

lemma mem_pyStripL {x : Char} {l : List Char} (h : x ∈ pyStripL l) : x ∈ l := by
  unfold pyStripL at h
  rw [List.mem_reverse] at h
  have h1 := (List.dropWhile_sublist pyIsSpace).mem h
  rw [List.mem_reverse] at h1
  exact (List.dropWhile_sublist pyIsSpace).mem h1

lemma pyLowerChar_spec (c : Char) :
    pyLowerChar c = c ∨ (c, pyLowerChar c) ∈ lowerPairs := by
  unfold pyLowerChar
  rcases h : lowerPairs.find? (fun p => p.1 == c) with _ | p
  · left; rw [h]; rfl
  · right
    have hm := List.mem_of_find?_eq_some h
    have hp := List.find?_some h
    rw [beq_iff_eq] at hp
    simp only [h, Option.map_some, Option.getD_some]
    rw [← hp]
    exact hm

lemma lowerPairs_facts :
    ∀ p ∈ lowerPairs, pyIsSpace p.1 = false ∧ pyIsSpace p.2 = false ∧
      p.2 ≠ '\n' ∧ pyLowerChar p.2 = p.2 := by decide

lemma pyIsSpace_pyLowerChar (c : Char) : pyIsSpace (pyLowerChar c) = pyIsSpace c := by
  rcases pyLowerChar_spec c with h | h
  · rw [h]
  · have := lowerPairs_facts _ h
    rw [this.2.1, this.1]

lemma pyLowerChar_idem (c : Char) : pyLowerChar (pyLowerChar c) = pyLowerChar c := by
  rcases pyLowerChar_spec c with h | h
  · rw [h, h]
  · exact lowerPairs_facts _ h |>.2.2.2

lemma pyLowerChar_eq_newline {c : Char} (h : pyLowerChar c = '\n') : c = '\n' := by
  rcases pyLowerChar_spec c with h' | h'
  · rw [← h', h]
  · exact absurd h (lowerPairs_facts _ h' |>.2.2.1)

lemma dropWhile_head_false {p : Char → Bool} {l : List Char} {a : Char}
    {t : List Char} (h : l.dropWhile p = a :: t) : p a = false := by
  induction l with
  | nil => simp [List.dropWhile] at h
  | cons c cs ih =>
    rw [List.dropWhile_cons] at h
    split at h
    · exact ih h
    · rename_i hp
      obtain ⟨rfl, -⟩ := List.cons.injEq .. ▸ h
      exact Bool.of_not_eq_true hp

lemma dropWhile_cons_of_false {p : Char → Bool} {a : Char} (l : List Char)
    (h : p a = false) : (a :: l).dropWhile p = a :: l := by
  rw [List.dropWhile_cons, h]
  simp

lemma dropWhile_idem (p : Char → Bool) (l : List Char) :
    (l.dropWhile p).dropWhile p = l.dropWhile p := by
  induction l with
  | nil => rfl
  | cons c cs ih =>
    rw [List.dropWhile_cons]
    split
    · exact ih
    · rename_i hp
      exact dropWhile_cons_of_false _ (Bool.of_not_eq_true hp)

/-- `str.rstrip()`-like right trim, the inner half of `pyStripL`. -/
def trimRightL (l : List Char) : List Char :=
  (l.reverse.dropWhile pyIsSpace).reverse

lemma pyStripL_eq_trimRight (l : List Char) :
    pyStripL l = trimRightL (l.dropWhile pyIsSpace) := rfl

lemma trimRightL_idem (l : List Char) : trimRightL (trimRightL l) = trimRightL l := by
  unfold trimRightL
  rw [List.reverse_reverse, dropWhile_idem]

lemma dropWhile_eq_self_head {l : List Char} (h : l.dropWhile pyIsSpace = l) :
    l = [] ∨ ∃ c t, l = c :: t ∧ pyIsSpace c = false := by
  cases l with
  | nil => exact Or.inl rfl
  | cons c t =>
    refine Or.inr ⟨c, t, rfl, ?_⟩
    by_contra hc
    have hc' : pyIsSpace c = true := by
      cases hb : pyIsSpace c
      · exact absurd hb hc
      · rfl
    rw [List.dropWhile_cons, if_pos hc'] at h
    have := congrArg List.length h
    have hlen := (List.dropWhile_sublist (l := t) pyIsSpace).length_le
    simp at this
    omega

lemma dropWhile_trimRight_of_head {l : List Char} (h : l.dropWhile pyIsSpace = l) :
    (trimRightL l).dropWhile pyIsSpace = trimRightL l := by
  rcases dropWhile_eq_self_head h with rfl | ⟨c, t, rfl, hc⟩
  · rfl
  · unfold trimRightL
    rw [List.reverse_cons, List.dropWhile_append]
    split
    · rename_i hemp
      rw [List.dropWhile_cons, hc]
      simp [hc]
    · rw [List.reverse_append, List.reverse_cons, List.reverse_nil, List.nil_append,
        List.cons_append]
      exact dropWhile_cons_of_false _ hc

lemma pyStripL_idem (l : List Char) : pyStripL (pyStripL l) = pyStripL l := by
  rw [pyStripL_eq_trimRight l, pyStripL_eq_trimRight,
    dropWhile_trimRight_of_head (dropWhile_idem pyIsSpace l), trimRightL_idem]

lemma pyStripL_eq_self_iff (l : List Char) :
    pyStripL l = l ↔
      (l.dropWhile pyIsSpace = l ∧ l.reverse.dropWhile pyIsSpace = l.reverse) := by
  constructor
  · intro h
    have hsub1 : List.Sublist (l.dropWhile pyIsSpace) l := List.dropWhile_sublist _
    have hsub2 : List.Sublist ((l.dropWhile pyIsSpace).reverse.dropWhile pyIsSpace)
        (l.dropWhile pyIsSpace).reverse := List.dropWhile_sublist _
    have hlen : (pyStripL l).length = l.length := by rw [h]
    unfold pyStripL at hlen
    rw [List.length_reverse] at hlen
    have hlen2 := hsub2.length_le
    rw [List.length_reverse] at hlen2
    have hlen3 := hsub1.length_le
    have e1 : (l.dropWhile pyIsSpace).length = l.length := by omega
    have hfront : l.dropWhile pyIsSpace = l := hsub1.eq_of_length e1
    refine ⟨hfront, ?_⟩
    have h2 : pyStripL l = (l.reverse.dropWhile pyIsSpace).reverse := by
      unfold pyStripL
      rw [hfront]
    rw [h2] at h
    have h3 := congrArg List.reverse h
    rwa [List.reverse_reverse] at h3
  · intro ⟨h1, h2⟩
    unfold pyStripL
    rw [h1, h2, List.reverse_reverse]

lemma pyStripL_map_lower (l : List Char) :
    pyStripL (l.map pyLowerChar) = (pyStripL l).map pyLowerChar := by
  have hcongr : (pyIsSpace ∘ pyLowerChar) = pyIsSpace := by
    funext c
    exact pyIsSpace_pyLowerChar c
  unfold pyStripL
  rw [List.dropWhile_map, hcongr, ← List.map_reverse, List.dropWhile_map, hcongr,
    ← List.map_reverse]

lemma map_lower_idem (l : List Char) :
    (l.map pyLowerChar).map pyLowerChar = l.map pyLowerChar := by
  rw [List.map_map]
  apply List.map_congr_left
  intro c _
  exact pyLowerChar_idem c

lemma newline_not_mem_map_lower {l : List Char} (h : '\n' ∉ l) :
    '\n' ∉ l.map pyLowerChar := by
  intro hm
  obtain ⟨c, hc, he⟩ := List.mem_map.mp hm
  exact h (pyLowerChar_eq_newline he ▸ hc)

/-- The canonical shape of any value the parser can hold in the
`confianza` field: trim-stable, lowercase-stable and newline-free. -/
def ConfOk (c : String) : Prop :=
  pyStripL c.data = c.data ∧ c.data.map pyLowerChar = c.data ∧ '\n' ∉ c.data

lemma confOk_baja : ConfOk "baja" := by
  refine ⟨?_, ?_, ?_⟩ <;> decide

lemma confOk_from_line {line : List Char} (h : '\n' ∉ line) :
    ConfOk (String.mk ((pyStripL (afterColonL line)).map pyLowerChar)) := by
  refine ⟨?_, ?_, ?_⟩
  · show pyStripL ((pyStripL (afterColonL line)).map pyLowerChar)
        = (pyStripL (afterColonL line)).map pyLowerChar
    rw [pyStripL_map_lower, pyStripL_idem]
  · exact map_lower_idem _
  · show '\n' ∉ (pyStripL (afterColonL line)).map pyLowerChar
    apply newline_not_mem_map_lower
    intro hm
    exact h ((afterColonL_sublist line).mem (mem_pyStripL hm))

/-- A line that matches one of the three recognized key prefixes. -/
def recognizedLine (l : List Char) : Bool :=
  isTipoKey (l.map pyUpperChar) || isConfKey (l.map pyUpperChar) ||
    isDescKey (l.map pyUpperChar)

lemma parseLine_unrecognized {l : List Char} (acc : String × String × String)
    (h : recognizedLine l = false) : parseLine acc l = acc := by
  unfold recognizedLine at h
  rw [Bool.or_eq_false_iff, Bool.or_eq_false_iff] at h
  unfold parseLine
  rw [if_neg (by rw [h.1.1]; exact Bool.false_ne_true),
    if_neg (by rw [h.1.2]; exact Bool.false_ne_true),
    if_neg (by rw [h.2]; exact Bool.false_ne_true)]

lemma foldl_parseLine_unrecognized (ls : List (List Char))
    (acc : String × String × String) (h : ∀ l ∈ ls, recognizedLine l = false) :
    ls.foldl parseLine acc = acc := by
  induction ls generalizing acc with
  | nil => rfl
  | cons a t ih =>
    rw [List.foldl_cons, parseLine_unrecognized acc (h a (List.mem_cons_self _ _))]
    exact ih acc (fun l hl => h l (List.mem_cons_of_mem _ hl))

lemma parseLine_conf_eq {l : List Char} (acc : String × String × String)
    (h : isConfKey (l.map pyUpperChar) = false) :
    (parseLine acc l).2.1 = acc.2.1 := by
  unfold parseLine
  split_ifs with h1 h2 h3 <;> first
    | rfl
    | exact absurd h2 (by rw [h]; exact Bool.false_ne_true)

lemma foldl_parseLine_conf_eq (ls : List (List Char))
    (acc : String × String × String)
    (h : ∀ l ∈ ls, isConfKey (l.map pyUpperChar) = false) :
    (ls.foldl parseLine acc).2.1 = acc.2.1 := by
  induction ls generalizing acc with
  | nil => rfl
  | cons a t ih =>
    rw [List.foldl_cons]
    rw [ih (parseLine acc a) (fun l hl => h l (List.mem_cons_of_mem _ hl))]
    exact parseLine_conf_eq acc (h a (List.mem_cons_self _ _))

lemma parseLine_confOk {l : List Char} (acc : String × String × String)
    (hnl : '\n' ∉ l) (hacc : ConfOk acc.2.1) : ConfOk (parseLine acc l).2.1 := by
  unfold parseLine
  split_ifs <;> first
    | exact hacc
    | exact confOk_from_line hnl

lemma foldl_parseLine_confOk (ls : List (List Char))
    (acc : String × String × String) (hls : ∀ l ∈ ls, '\n' ∉ l)
    (hacc : ConfOk acc.2.1) : ConfOk ((ls.foldl parseLine acc).2.1) := by
  induction ls generalizing acc with
  | nil => exact hacc
  | cons a t ih =>
    rw [List.foldl_cons]
    exact ih (parseLine acc a) (fun l hl => hls l (List.mem_cons_of_mem _ hl))
      (parseLine_confOk acc (hls a (List.mem_cons_self _ _)) hacc)

lemma linesOf_no_newline (texto : String) : ∀ l ∈ linesOf texto, '\n' ∉ l := by
  intro l hl
  exact mem_splitOnChar_not_mem '\n' (pyStripL texto.data) l hl

lemma parse_clasificacion_confOk (texto : String) :
    ConfOk (parse_clasificacion texto).2.1 := by
  unfold parse_clasificacion parseRaw
  exact foldl_parseLine_confOk _ _ (linesOf_no_newline texto) confOk_baja

lemma parse_clasificacion_tipo_mem (texto : String) :
    (parse_clasificacion texto).1 ∈ TIPOS_DOCUMENTO := by
  unfold parse_clasificacion
  simp only
  split
  · assumption
  · decide

/-! ### Claim theorems -/

/-- C2: `parse_clasificacion` is total (a measurable Lean function by
construction, with no failure path); the `tipo` field of its result is
always a member of the fixed 18-value enumeration `TIPOS_DOCUMENTO`
(ending in "Otro"); an extracted type string that is not byte-for-byte a
member of the enumeration is forced to "Otro"; and input with no
recognized key lines yields `("Otro", "baja", <entire raw input>)`. -/
theorem C2_parse_clasificacion_total (texto : String) :
    (parse_clasificacion texto).1 ∈ TIPOS_DOCUMENTO
  ∧ ((parseRaw texto).1 ∉ TIPOS_DOCUMENTO →
      (parse_clasificacion texto).1 = "Otro")
  ∧ ((∀ l ∈ linesOf texto, recognizedLine l = false) →
      parse_clasificacion texto = ("Otro", "baja", texto)) := by
  refine ⟨parse_clasificacion_tipo_mem texto, ?_, ?_⟩
  · intro h
    unfold parse_clasificacion
    simp only
    rw [if_neg h]
  · intro h
    unfold parse_clasificacion parseRaw
    rw [foldl_parseLine_unrecognized _ _ h]
    simp only
    rw [if_pos (by decide)]

/-- Witness for C2 at concrete inputs: "hola" has no recognized key line
and parses to the all-default record; "TIPO: banana" extracts an
out-of-enumeration type that is forced to "Otro". -/
theorem C2_parse_clasificacion_total_witness :
    (parse_clasificacion "hola").1 ∈ TIPOS_DOCUMENTO
  ∧ (parse_clasificacion "TIPO: banana").1 = "Otro"
  ∧ parse_clasificacion "hola" = ("Otro", "baja", "hola") :=
  ⟨(C2_parse_clasificacion_total "hola").1,
   (C2_parse_clasificacion_total "TIPO: banana").2.1 (by decide),
   (C2_parse_clasificacion_total "hola").2.2 (by decide)⟩

/-- C4 counterexample: the code never validates the CONFIANZA value, so a
malformed (out-of-set) value is passed through verbatim instead of
defaulting to "baja" — refuting the claim that the confidence field is
always one of {alta, media, baja}. -/
theorem C4_confianza_counterexample :
    (parse_clasificacion "CONFIANZA: quizza").2.1 = "quizza"
  ∧ ("quizza" : String) ∉ ["alta", "media", "baja"] := by
  constructor
  · decide
  · decide

/-- C4 (amended): the confidence field defaults to "baja" when no
CONFIANZA line is present; when a CONFIANZA line is present, its trimmed
lowercased value is used without membership validation, so it may lie
outside {alta, media, baja} (e.g. "quizza"). -/
theorem C4_confianza_default (texto : String) :
    ((∀ l ∈ linesOf texto, isConfKey (l.map pyUpperChar) = false) →
      (parse_clasificacion texto).2.1 = "baja")
  ∧ (parse_clasificacion "CONFIANZA: quizza").2.1 = "quizza" := by
  constructor
  · intro h
    unfold parse_clasificacion parseRaw
    simp only
    exact foldl_parseLine_conf_eq _ _ h
  · decide

/-- Witness for C4 (amended) at the concrete input "hola" (which has no
CONFIANZA line). -/
theorem C4_confianza_default_witness :
    (parse_clasificacion "hola").2.1 = "baja"
  ∧ (parse_clasificacion "CONFIANZA: quizza").2.1 = "quizza" :=
  ⟨(C4_confianza_default "hola").1 (by decide), (C4_confianza_default "hola").2⟩

/-- C9: `detect_file_type` is total — for every byte buffer (including
the empty buffer and buffers shorter than any signature) it returns a
member of the closed format set {pdf, png, jpeg, gif, webp, docx, doc,
xlsx, pptx, zip, unknown} without failing, and any buffer matching no
signature yields "unknown". -/
theorem C9_detect_file_type_total (fb : List Nat) :
    detect_file_type fb ∈
      ["pdf", "png", "jpeg", "gif", "webp", "docx", "doc", "xlsx", "pptx",
       "zip", "unknown"]
  ∧ (fb.take 4 ≠ pdfMagic → fb.take 8 ≠ pngMagic → fb.take 2 ≠ jpegMagic →
      fb.take 4 ≠ gifMagic →
      ¬(fb.take 4 = riffMagic ∧ (fb.drop 8).take 4 = webpMagic) →
      fb.take 4 ≠ pkMagic → fb.take 8 ≠ oleMagic →
      detect_file_type fb = "unknown") := by
  constructor
  · unfold detect_file_type
    split_ifs <;> decide
  · intro h1 h2 h3 h4 h5 h6 h7
    unfold detect_file_type
    rw [if_neg h1, if_neg h2, if_neg h3, if_neg h4, if_neg h5, if_neg h6,
      if_neg h7]

/-- Witness for C9 at concrete buffers: the empty buffer, and the 4-byte
buffer `RIFF` (shorter than the 12 bytes WebP needs), both map into the
closed set, the latter to "unknown". -/
theorem C9_detect_file_type_total_witness :
    detect_file_type [] ∈
      ["pdf", "png", "jpeg", "gif", "webp", "docx", "doc", "xlsx", "pptx",
       "zip", "unknown"]
  ∧ detect_file_type [82, 73, 70, 70] = "unknown" :=
  ⟨(C9_detect_file_type_total []).1,
   (C9_detect_file_type_total [82, 73, 70, 70]).2 (by decide) (by decide)
     (by decide) (by decide) (by decide) (by decide) (by decide)⟩

/-- C5: every byte buffer matching a signature-table entry is detected as
the corresponding tag; WebP requires both `RIFF` at offset 0 and `WEBP`
at offset 8; for `PK\x03\x04` buffers the secondary scan of the first
2000 bytes for `word/`, `xl/`, `ppt/` (in that priority order) yields
docx/xlsx/pptx, and no office marker yields generic "zip". -/
theorem C5_detect_file_type_signatures (fb : List Nat) :
    (fb.take 4 = pdfMagic → detect_file_type fb = "pdf")
  ∧ (fb.take 8 = pngMagic → detect_file_type fb = "png")
  ∧ (fb.take 2 = jpegMagic → detect_file_type fb = "jpeg")
  ∧ (fb.take 4 = gifMagic → detect_file_type fb = "gif")
  ∧ (fb.take 4 = riffMagic → (fb.drop 8).take 4 = webpMagic →
      detect_file_type fb = "webp")
  ∧ (fb.take 4 = pkMagic → bytesContains (fb.take 2000) wordMarker = true →
      detect_file_type fb = "docx")
  ∧ (fb.take 4 = pkMagic → bytesContains (fb.take 2000) wordMarker = false →
      bytesContains (fb.take 2000) xlMarker = true →
      detect_file_type fb = "xlsx")
  ∧ (fb.take 4 = pkMagic → bytesContains (fb.take 2000) wordMarker = false →
      bytesContains (fb.take 2000) xlMarker = false →
      bytesContains (fb.take 2000) pptMarker = true →
      detect_file_type fb = "pptx")
  ∧ (fb.take 4 = pkMagic → bytesContains (fb.take 2000) wordMarker = false →
      bytesContains (fb.take 2000) xlMarker = false →
      bytesContains (fb.take 2000) pptMarker = false →
      detect_file_type fb = "zip")
  ∧ (fb.take 8 = oleMagic → detect_file_type fb = "doc") := by
  refine ⟨?_, ?_, ?_, ?_, ?_, ?_, ?_, ?_, ?_, ?_⟩
  · intro h
    unfold detect_file_type
    rw [if_pos h]
  · intro h
    unfold detect_file_type
    rw [if_neg (take_ne' h (by decide) pdfMagic (by decide)), if_pos h]
  · intro h
    unfold detect_file_type
    rw [if_neg (take_ne h (by decide) (by decide)),
      if_neg (take_ne h (by decide) (by decide)), if_pos h]
  · intro h
    unfold detect_file_type
    rw [if_neg (take_ne' h (by decide) pdfMagic (by decide)),
      if_neg (take_ne h (by decide) (by decide)),
      if_neg (take_ne' h (by decide) jpegMagic (by decide)), if_pos h]
  · intro h1 h2
    unfold detect_file_type
    rw [if_neg (take_ne' h1 (by decide) pdfMagic (by decide)),
      if_neg (take_ne h1 (by decide) (by decide)),
      if_neg (take_ne' h1 (by decide) jpegMagic (by decide)),
      if_neg (take_ne' h1 (by decide) gifMagic (by decide)),
      if_pos (And.intro h1 h2)]
  · intro h hw
    unfold detect_file_type
    rw [if_neg (take_ne' h (by decide) pdfMagic (by decide)),
      if_neg (take_ne h (by decide) (by decide)),
      if_neg (take_ne' h (by decide) jpegMagic (by decide)),
      if_neg (take_ne' h (by decide) gifMagic (by decide)),
      if_neg (fun hc => (take_ne' h (by decide) riffMagic (by decide)) hc.1),
      if_pos h, if_pos hw]
  · intro h hw hx
    unfold detect_file_type
    rw [if_neg (take_ne' h (by decide) pdfMagic (by decide)),
      if_neg (take_ne h (by decide) (by decide)),
      if_neg (take_ne' h (by decide) jpegMagic (by decide)),
      if_neg (take_ne' h (by decide) gifMagic (by decide)),
      if_neg (fun hc => (take_ne' h (by decide) riffMagic (by decide)) hc.1),
      if_pos h, if_neg (by rw [hw]; exact Bool.false_ne_true), if_pos hx]
  · intro h hw hx hp
    unfold detect_file_type
    rw [if_neg (take_ne' h (by decide) pdfMagic (by decide)),
      if_neg (take_ne h (by decide) (by decide)),
      if_neg (take_ne' h (by decide) jpegMagic (by decide)),
      if_neg (take_ne' h (by decide) gifMagic (by decide)),
      if_neg (fun hc => (take_ne' h (by decide) riffMagic (by decide)) hc.1),
      if_pos h, if_neg (by rw [hw]; exact Bool.false_ne_true),
      if_neg (by rw [hx]; exact Bool.false_ne_true), if_pos hp]
  · intro h hw hx hp
    unfold detect_file_type
    rw [if_neg (take_ne' h (by decide) pdfMagic (by decide)),
      if_neg (take_ne h (by decide) (by decide)),
      if_neg (take_ne' h (by decide) jpegMagic (by decide)),
      if_neg (take_ne' h (by decide) gifMagic (by decide)),
      if_neg (fun hc => (take_ne' h (by decide) riffMagic (by decide)) hc.1),
      if_pos h, if_neg (by rw [hw]; exact Bool.false_ne_true),
      if_neg (by rw [hx]; exact Bool.false_ne_true),
      if_neg (by rw [hp]; exact Bool.false_ne_true)]
  · intro h
    unfold detect_file_type
    rw [if_neg (take_ne' h (by decide) pdfMagic (by decide)),
      if_neg (take_ne' h (by decide) pngMagic (by decide)),
      if_neg (take_ne' h (by decide) jpegMagic (by decide)),
      if_neg (take_ne' h (by decide) gifMagic (by decide)),
      if_neg (fun hc => (take_ne' h (by decide) riffMagic (by decide)) hc.1),
      if_neg (take_ne' h (by decide) pkMagic (by decide)), if_pos h]

/-- Witness for C5 at concrete buffers, one per signature-table entry,
discharging every hypothesis by evaluation (e.g. `PK\x03\x04` followed by
`xl/` is detected as xlsx, a bare `PK\x03\x04` as zip). -/
theorem C5_detect_file_type_signatures_witness :
    detect_file_type [37, 80, 68, 70] = "pdf"
  ∧ detect_file_type [137, 80, 78, 71, 13, 10, 26, 10] = "png"
  ∧ detect_file_type [255, 216] = "jpeg"
  ∧ detect_file_type [71, 73, 70, 56] = "gif"
  ∧ detect_file_type [82, 73, 70, 70, 0, 0, 0, 0, 87, 69, 66, 80] = "webp"
  ∧ detect_file_type [80, 75, 3, 4, 119, 111, 114, 100, 47] = "docx"
  ∧ detect_file_type [80, 75, 3, 4, 120, 108, 47] = "xlsx"
  ∧ detect_file_type [80, 75, 3, 4, 112, 112, 116, 47] = "pptx"
  ∧ detect_file_type [80, 75, 3, 4] = "zip"
  ∧ detect_file_type [208, 207, 17, 224, 161, 177, 26, 225] = "doc" :=
  ⟨(C5_detect_file_type_signatures _).1 (by decide),
   (C5_detect_file_type_signatures _).2.1 (by decide),
   (C5_detect_file_type_signatures _).2.2.1 (by decide),
   (C5_detect_file_type_signatures _).2.2.2.1 (by decide),
   (C5_detect_file_type_signatures _).2.2.2.2.1 (by decide) (by decide),
   (C5_detect_file_type_signatures _).2.2.2.2.2.1 (by decide) (by decide),
   (C5_detect_file_type_signatures _).2.2.2.2.2.2.1 (by decide) (by decide)
     (by decide),
   (C5_detect_file_type_signatures _).2.2.2.2.2.2.2.1 (by decide) (by decide)
     (by decide) (by decide),
   (C5_detect_file_type_signatures _).2.2.2.2.2.2.2.2.1 (by decide) (by decide)
     (by decide) (by decide),
   (C5_detect_file_type_signatures _).2.2.2.2.2.2.2.2.2 (by decide)⟩

/-- Is a trace entry a vision-collaborator invocation? -/
def isVisionCall : ExtCall → Bool
  | ExtCall.visionCall _ _ => true
  | _ => false

/-- A concrete collaborator with fixed non-empty responses. -/
def stubCollab : Collab where
  stt := fun _ => (some "hola", some "en")
  llm := fun _ _ => "R"
  vision := fun _ _ => "V"
  tts := fun _ _ => [1]
  office := fun b => b
  pdfImages := fun _ => [[1]]
  b64 := fun _ => "IMG"
  ogg := fun _ => "AUDIO"

lemma imageTypes_not_office {s : String} (h : s ∈ imageTypes) :
    s ∉ officeTypes ∧ s ≠ "pdf" := by
  fin_cases h <;> decide

/-- C6: every endpoint validates its input before any external call — an
empty uploaded byte buffer (or empty chat text) yields a 400 with an
empty collaborator-call trace, and on the document and classify paths an
unsupported detected format ("zip" or "unknown") short-circuits with a
400 before any external call. -/
theorem C6_validation_before_external_calls (C : Collab) :
    (∀ texto idioma sp, pyStrip texto = "" →
       chat C texto idioma sp =
         (Except.error ⟨400, "El texto no puede estar vacío"⟩, []))
  ∧ voice C [] = (Except.error ⟨400, "Archivo de audio vacío"⟩, [])
  ∧ (∀ prompt idioma, image C [] prompt idioma =
       (Except.error ⟨400, "Archivo de imagen vacío"⟩, []))
  ∧ (∀ prompt idioma, document C [] prompt idioma =
       (Except.error ⟨400, "Archivo vacío"⟩, []))
  ∧ (∀ idioma, classify C [] idioma =
       (Except.error ⟨400, "Archivo vacío"⟩, []))
  ∧ (∀ fb prompt idioma, fb ≠ [] →
       detect_file_type fb = "zip" ∨ detect_file_type fb = "unknown" →
       document C fb prompt idioma =
         (Except.error ⟨400,
           "Tipo de archivo no soportado. Use PDF, Office (DOCX, XLSX, PPTX) o imágenes"⟩,
          []))
  ∧ (∀ fb idioma, fb ≠ [] →
       detect_file_type fb = "zip" ∨ detect_file_type fb = "unknown" →
       classify C fb idioma =
         (Except.error ⟨400,
           "Tipo de archivo no soportado. Use PDF, Office (DOCX, XLSX, PPTX) o imágenes"⟩,
          [])) := by
  refine ⟨?_, ?_, ?_, ?_, ?_, ?_, ?_⟩
  · intro texto idioma sp h
    unfold chat
    rw [if_pos h]
  · rfl
  · intro prompt idioma
    rfl
  · intro prompt idioma
    rfl
  · intro idioma
    rfl
  · intro fb prompt idioma hne hd
    rcases hd with hd | hd <;>
      simp +decide [document, hne, hd, officeTypes, imageTypes]
  · intro fb idioma hne hd
    rcases hd with hd | hd <;>
      simp +decide [classify, classify_step, hne, hd, officeTypes, imageTypes]

/-- Witness for C6 at concrete inputs: the empty text/buffer on every
endpoint, a bare `PK\x03\x04` buffer (detected "zip") on `/document`, and
a one-byte buffer (detected "unknown") on `/classify`. -/
theorem C6_validation_before_external_calls_witness :
    chat stubCollab "" none none =
      (Except.error ⟨400, "El texto no puede estar vacío"⟩, [])
  ∧ voice stubCollab [] = (Except.error ⟨400, "Archivo de audio vacío"⟩, [])
  ∧ image stubCollab [] "p" none =
      (Except.error ⟨400, "Archivo de imagen vacío"⟩, [])
  ∧ document stubCollab [] "p" none = (Except.error ⟨400, "Archivo vacío"⟩, [])
  ∧ classify stubCollab [] none = (Except.error ⟨400, "Archivo vacío"⟩, [])
  ∧ document stubCollab [80, 75, 3, 4] "p" none =
      (Except.error ⟨400,
        "Tipo de archivo no soportado. Use PDF, Office (DOCX, XLSX, PPTX) o imágenes"⟩,
       [])
  ∧ classify stubCollab [9] none =
      (Except.error ⟨400,
        "Tipo de archivo no soportado. Use PDF, Office (DOCX, XLSX, PPTX) o imágenes"⟩,
       []) :=
  ⟨(C6_validation_before_external_calls stubCollab).1 "" none none (by decide),
   (C6_validation_before_external_calls stubCollab).2.1,
   (C6_validation_before_external_calls stubCollab).2.2.1 "p" none,
   (C6_validation_before_external_calls stubCollab).2.2.2.1 "p" none,
   (C6_validation_before_external_calls stubCollab).2.2.2.2.1 none,
   (C6_validation_before_external_calls stubCollab).2.2.2.2.2.1 [80, 75, 3, 4]
     "p" none (by decide) (Or.inl (by decide)),
   (C6_validation_before_external_calls stubCollab).2.2.2.2.2.2 [9] none
     (by decide) (Or.inr (by decide))⟩

/-- C3: the document PDF loop invokes the vision collaborator once per
page, sequentially in page order, substituting the page number into the
prompt ("Página N: " prefix); the combined text joins the per-page
results each under a "--- Página N ---" header in ascending order (shown
concretely for a 3-page input yielding "P1","P2","P3"); and for a
single-image (non-PDF) document input the collaborator is invoked exactly
once with the caller-supplied prompt verbatim, and the successful reply
text is exactly the collaborator's response — no page header is added. -/
theorem C3_page_analysis_order (C : Collab) (prompt : String) :
    (∀ images i, (pdfLoop C prompt images i).2 =
       (images.enumFrom i).map (fun p =>
         ExtCall.visionCall (C.b64 p.2)
           ("Página " ++ toString (p.1 + 1) ++ ": " ++ prompt)))
  ∧ (∀ i1 i2 i3 : List Nat,
       C.vision (C.b64 i1) ("Página 1: " ++ prompt) = "P1" →
       C.vision (C.b64 i2) ("Página 2: " ++ prompt) = "P2" →
       C.vision (C.b64 i3) ("Página 3: " ++ prompt) = "P3" →
       joinSep "\n\n" (pdfLoop C prompt [i1, i2, i3] 0).1 =
         "--- Página 1 ---\nP1\n\n--- Página 2 ---\nP2\n\n--- Página 3 ---\nP3")
  ∧ (∀ img idioma, img ≠ [] → detect_file_type img ∈ imageTypes →
       (document C img prompt idioma).2.filter isVisionCall =
         [ExtCall.visionCall (C.b64 img) prompt]
       ∧ (C.vision (C.b64 img) prompt ≠ "" →
           (document C img prompt idioma).1 =
             Except.ok ⟨C.vision (C.b64 img) prompt,
               C.ogg (C.tts (C.vision (C.b64 img) prompt) (idioma.getD "es")),
               idioma.getD "es"⟩)) := by
  refine ⟨?_, ?_, ?_⟩
  · intro images
    induction images with
    | nil => intro i; rfl
    | cons img rest ih =>
      intro i
      simp only [pdfLoop, List.enumFrom, List.map_cons, ih (i + 1)]
  · intro i1 i2 i3 h1 h2 h3
    have e1 : (("Página " ++ toString (0 + 1)) ++ ": " : String) = "Página 1: " := by
      decide
    have e2 : (("Página " ++ toString (1 + 1)) ++ ": " : String) = "Página 2: " := by
      decide
    have e3 : (("Página " ++ toString (2 + 1)) ++ ": " : String) = "Página 3: " := by
      decide
    simp only [pdfLoop]
    rw [e1, e2, e3, h1, h2, h3]
    decide
  · intro img idioma hne him
    have ⟨ho, hp⟩ := imageTypes_not_office him
    constructor
    · by_cases hv : C.vision (C.b64 img) prompt = "" <;>
        · unfold document
          rw [if_neg hne]
          simp [ho, hp, him, hv, isVisionCall]
    · intro hv
      unfold document
      rw [if_neg hne]
      simp [ho, hp, him, hv]

/-- A concrete collaborator answering "P1"/"P2"/"P3" to the three
page-numbered prompts. -/
def pagesCollab : Collab where
  stt := fun _ => (some "hola", some "es")
  llm := fun _ _ => "R"
  vision := fun _ pr =>
    if pr = "Página 1: p" then "P1"
    else if pr = "Página 2: p" then "P2"
    else if pr = "Página 3: p" then "P3"
    else "V"
  tts := fun _ _ => [1]
  office := fun b => b
  pdfImages := fun _ => [[1], [2], [3]]
  b64 := fun _ => "IMG"
  ogg := fun _ => "AUDIO"

/-- Witness for C3 at concrete inputs: a 3-page run of the loop under a
collaborator answering "P1"/"P2"/"P3", and a single JPEG-image document
request. -/
theorem C3_page_analysis_order_witness :
    (pdfLoop pagesCollab "p" [[1], [2], [3]] 0).2 =
      (([[1], [2], [3]] : List (List Nat)).enumFrom 0).map (fun p =>
        ExtCall.visionCall (pagesCollab.b64 p.2)
          ("Página " ++ toString (p.1 + 1) ++ ": " ++ "p"))
  ∧ joinSep "\n\n" (pdfLoop pagesCollab "p" [[1], [2], [3]] 0).1 =
      "--- Página 1 ---\nP1\n\n--- Página 2 ---\nP2\n\n--- Página 3 ---\nP3"
  ∧ (document pagesCollab [255, 216] "p" none).2.filter isVisionCall =
      [ExtCall.visionCall (pagesCollab.b64 [255, 216]) "p"]
  ∧ (document pagesCollab [255, 216] "p" none).1 =
      Except.ok ⟨"V", "AUDIO", "es"⟩ :=
  ⟨(C3_page_analysis_order pagesCollab "p").1 [[1], [2], [3]] 0,
   (C3_page_analysis_order pagesCollab "p").2.1 [1] [2] [3] (by decide)
     (by decide) (by decide),
   ((C3_page_analysis_order pagesCollab "p").2.2 [255, 216] none (by decide)
     (by decide)).1,
   ((C3_page_analysis_order pagesCollab "p").2.2 [255, 216] none (by decide)
     (by decide)).2 (by decide)⟩

/-- C7 counterexample: the classification reply (`ClassifyResponse`) does
not add exactly two extra fields over the uniform three-field reply — it
adds three (tipo_documento, confianza, descripcion), for six fields in
total. -/
theorem C7_reply_fields_counterexample :
    (ClassifyResponse.fields ⟨"Otro", "baja", "d", "t", "a", "es"⟩).length ≠
      (ChatResponse.fields ⟨"t", "a", "es"⟩).length + 2
  ∧ (ClassifyResponse.fields ⟨"Otro", "baja", "d", "t", "a", "es"⟩).length =
      (ChatResponse.fields ⟨"t", "a", "es"⟩).length + 3 := by
  constructor
  · decide
  · decide

/-- C7 (amended): every request path's successful reply carries the same
three fields (texto, audio_b64, idioma) — chat/voice/image/document
replies are `ChatResponse` values with exactly those fields, and the
classification reply adds exactly three extra fields (tipo_documento,
confianza, descripcion) while still including all three. -/
theorem C7_reply_fields (r : ClassifyResponse) (c : ChatResponse) :
    (ChatResponse.fields c).map Prod.fst = ["texto", "audio_b64", "idioma"]
  ∧ (ClassifyResponse.fields r).map Prod.fst =
      ["tipo_documento", "confianza", "descripcion"]
        ++ ["texto", "audio_b64", "idioma"]
  ∧ ("texto", r.texto) ∈ ClassifyResponse.fields r
  ∧ ("audio_b64", r.audio_b64) ∈ ClassifyResponse.fields r
  ∧ ("idioma", r.idioma) ∈ ClassifyResponse.fields r := by
  refine ⟨rfl, rfl, ?_, ?_, ?_⟩ <;> simp [ClassifyResponse.fields]

/-- C10 counterexample: with an empty-string language parameter, `/chat`
replies with "es" rather than the caller-supplied value (Python's
`request.idioma or "es"`), while `/image` passes the empty string through
to the TTS collaborator — whose `entrada.idioma or detectar_idioma(...)`
resolution then exercises the auto-detection path ("auto" stands for
whatever the detector would return). -/
theorem C10_language_counterexample :
    (chat stubCollab "hola" (some "") none).1 = Except.ok ⟨"R", "AUDIO", "es"⟩
  ∧ ("es" : String) ≠ ""
  ∧ (image stubCollab [7] "p" (some "")).2 =
      [ExtCall.visionCall "IMG" "p", ExtCall.ttsCall "V" ""]
  ∧ tts_idioma_solicitado (some "") "auto" = "auto" := by
  refine ⟨by decide, by decide, by decide, rfl⟩

/-- C10 (amended): on success, the `/chat` reply language is the
caller-supplied value when non-empty and "es" otherwise; the `/image`,
`/document` and `/classify` reply language is the caller-supplied form
value verbatim, "es" when the field is omitted; each of these invokes the
TTS collaborator with exactly that language tag, and the TTS-side
auto-detection is bypassed whenever the tag is non-empty; the `/voice`
reply language is the STT-detected language, "es" when the STT response
lacks one. -/
theorem C10_language_propagation :
    (∀ (C : Collab) texto idioma sp r, (chat C texto idioma sp).1 = Except.ok r →
       r.idioma = pyOrStr idioma "es"
       ∧ ExtCall.ttsCall r.texto r.idioma ∈ (chat C texto idioma sp).2)
  ∧ (∀ (C : Collab) audio r, (voice C audio).1 = Except.ok r →
       r.idioma = (C.stt audio).2.getD "es"
       ∧ ExtCall.ttsCall r.texto r.idioma ∈ (voice C audio).2)
  ∧ (∀ (C : Collab) img prompt idioma r,
       (image C img prompt idioma).1 = Except.ok r →
       r.idioma = idioma.getD "es"
       ∧ ExtCall.ttsCall r.texto r.idioma ∈ (image C img prompt idioma).2)
  ∧ (∀ (C : Collab) fb prompt idioma r,
       (document C fb prompt idioma).1 = Except.ok r →
       r.idioma = idioma.getD "es"
       ∧ ExtCall.ttsCall r.texto r.idioma ∈ (document C fb prompt idioma).2)
  ∧ (∀ (C : Collab) fb idioma r, (classify C fb idioma).1 = Except.ok r →
       r.idioma = idioma.getD "es"
       ∧ ExtCall.ttsCall r.texto r.idioma ∈ (classify C fb idioma).2)
  ∧ (∀ s d, s ≠ "" → tts_idioma_solicitado (some s) d = s) := by
  refine ⟨?_, ?_, ?_, ?_, ?_, ?_⟩
  · intro C texto idioma sp r h
    unfold chat at h ⊢
    by_cases h1 : pyStrip texto = ""
    · rw [if_pos h1] at h
      exact absurd h (by simp)
    · rw [if_neg h1] at h ⊢
      by_cases h2 : C.llm texto sp = ""
      · simp only [h2, if_pos rfl] at h
        exact absurd h (by simp)
      · simp only [if_neg h2] at h ⊢
        simp only [Except.ok.injEq] at h
        subst h
        exact ⟨rfl, by simp⟩
  · intro C audio r h
    unfold voice at h ⊢
    by_cases h1 : audio = []
    · rw [if_pos h1] at h
      exact absurd h (by simp)
    · rw [if_neg h1] at h ⊢
      by_cases h2 : (C.stt audio).1.getD "" = ""
      · simp only [h2, if_pos rfl] at h
        exact absurd h (by simp)
      · simp only [if_neg h2] at h ⊢
        by_cases h3 : C.llm ((C.stt audio).1.getD "") none = ""
        · simp only [h3, if_pos rfl] at h
          exact absurd h (by simp)
        · simp only [if_neg h3] at h ⊢
          simp only [Except.ok.injEq] at h
          subst h
          exact ⟨rfl, by simp⟩
  · intro C img prompt idioma r h
    unfold image at h ⊢
    by_cases h1 : img = []
    · rw [if_pos h1] at h
      exact absurd h (by simp)
    · rw [if_neg h1] at h ⊢
      by_cases h2 : C.vision (C.b64 img) prompt = ""
      · simp only [h2, if_pos rfl] at h
        exact absurd h (by simp)
      · simp only [if_neg h2] at h ⊢
        simp only [Except.ok.injEq] at h
        subst h
        exact ⟨rfl, by simp⟩
  · intro C fb prompt idioma r h
    unfold document at h ⊢
    by_cases h1 : fb = []
    · rw [if_pos h1] at h
      exact absurd h (by simp)
    · rw [if_neg h1] at h ⊢
      by_cases h2 : (if detect_file_type fb ∈ officeTypes then "pdf"
          else detect_file_type fb) = "pdf"
      · simp only [if_pos h2] at h ⊢
        by_cases h3 : C.pdfImages
            (if detect_file_type fb ∈ officeTypes then C.office fb else fb) = []
        · simp only [h3, if_pos rfl] at h
          exact absurd h (by simp)
        · simp only [if_neg h3] at h ⊢
          by_cases h4 : joinSep "\n\n"
              (pdfLoop C prompt (C.pdfImages
                (if detect_file_type fb ∈ officeTypes then C.office fb else fb)) 0).1 = ""
          · simp only [h4, if_pos rfl] at h
            exact absurd h (by simp)
          · simp only [if_neg h4] at h ⊢
            simp only [Except.ok.injEq] at h
            subst h
            exact ⟨rfl, by simp⟩
      · simp only [if_neg h2] at h ⊢
        by_cases h5 : (if detect_file_type fb ∈ officeTypes then "pdf"
            else detect_file_type fb) ∈ imageTypes
        · simp only [if_pos h5] at h ⊢
          by_cases h6 : C.vision (C.b64
              (if detect_file_type fb ∈ officeTypes then C.office fb else fb))
              prompt = ""
          · simp only [h6, if_pos rfl] at h
            exact absurd h (by simp)
          · simp only [if_neg h6] at h ⊢
            simp only [Except.ok.injEq] at h
            subst h
            exact ⟨rfl, by simp⟩
        · simp only [if_neg h5] at h
          exact absurd h (by simp)
  · intro C fb idioma r h
    unfold classify at h ⊢
    by_cases h1 : fb = []
    · rw [if_pos h1] at h
      exact absurd h (by simp)
    · rw [if_neg h1] at h ⊢
      rcases hstep : classify_step C
          (if detect_file_type fb ∈ officeTypes then C.office fb else fb)
          (if detect_file_type fb ∈ officeTypes then "pdf" else detect_file_type fb)
        with e | b64v
      · simp only [hstep] at h
        simp at h
      · simp only [hstep] at h ⊢
        by_cases h2 : C.vision b64v PROMPT_CLASIFICACION = ""
        · simp only [h2, if_pos rfl] at h
          exact absurd h (by simp)
        · simp only [if_neg h2] at h ⊢
          simp only [Except.ok.injEq] at h
          subst h
          exact ⟨rfl, by simp⟩
  · intro s d hs
    simp [tts_idioma_solicitado, hs]

/-- Witness for C10 (amended): concrete successful requests on each
endpoint, and a concrete non-empty tag bypassing TTS auto-detection. -/
theorem C10_language_propagation_witness :
    (("es" : String) = pyOrStr none "es"
       ∧ ExtCall.ttsCall "R" "es" ∈ (chat stubCollab "hola" none none).2)
  ∧ (("en" : String) = (stubCollab.stt [7]).2.getD "es"
       ∧ ExtCall.ttsCall "R" "en" ∈ (voice stubCollab [7]).2)
  ∧ (("fr" : String) = (some "fr" : Option String).getD "es"
       ∧ ExtCall.ttsCall "V" "fr" ∈ (image stubCollab [7] "p" (some "fr")).2)
  ∧ (("es" : String) = (none : Option String).getD "es"
       ∧ ExtCall.ttsCall "--- Página 1 ---\nV" "es" ∈
           (document stubCollab [37, 80, 68, 70] "p" none).2)
  ∧ (("es" : String) = (none : Option String).getD "es"
       ∧ ExtCall.ttsCall "Documento identificado como Otro. V" "es" ∈
           (classify stubCollab [255, 216] none).2)
  ∧ tts_idioma_solicitado (some "en") "auto" = "en" :=
  ⟨C10_language_propagation.1 stubCollab "hola" none none ⟨"R", "AUDIO", "es"⟩
     (by decide),
   C10_language_propagation.2.1 stubCollab [7] ⟨"R", "AUDIO", "en"⟩ (by decide),
   C10_language_propagation.2.2.1 stubCollab [7] "p" (some "fr")
     ⟨"V", "AUDIO", "fr"⟩ (by decide),
   C10_language_propagation.2.2.2.1 stubCollab [37, 80, 68, 70] "p" none
     ⟨"--- Página 1 ---\nV", "AUDIO", "es"⟩ (by decide),
   C10_language_propagation.2.2.2.2.1 stubCollab [255, 216] none
     ⟨"Otro", "baja", "V", "Documento identificado como Otro. V", "AUDIO", "es"⟩
     (by decide),
   C10_language_propagation.2.2.2.2.2 "en" "auto" (by decide)⟩

lemma parseLine_tipo_line (acc : String × String × String) (x : List Char) :
    parseLine acc ("TIPO: ".data ++ x) =
      (String.mk (pyStripL x), acc.2.1, acc.2.2) := rfl

lemma parseLine_conf_line (acc : String × String × String) (x : List Char) :
    parseLine acc ("CONFIANZA: ".data ++ x) =
      (acc.1, String.mk ((pyStripL x).map pyLowerChar), acc.2.2) := rfl

lemma parseLine_desc_line (acc : String × String × String) (x : List Char) :
    parseLine acc ("DESCRIPCION: ".data ++ x) =
      (acc.1, acc.2.1, String.mk (pyStripL x)) := rfl

lemma parseLine_desc_colon (acc : String × String × String) :
    parseLine acc "DESCRIPCION:".data = (acc.1, acc.2.1, "") := rfl

lemma trimRightL_append (xs ys : List Char)
    (hy : ∃ y ∈ ys, pyIsSpace y = false) :
    trimRightL (xs ++ ys) = xs ++ trimRightL ys := by
  unfold trimRightL
  rw [List.reverse_append, List.dropWhile_append]
  have hne : ys.reverse.dropWhile pyIsSpace ≠ [] := by
    rw [Ne, List.dropWhile_eq_nil_iff]
    intro hall
    obtain ⟨y, hym, hyf⟩ := hy
    have := hall y (List.mem_reverse.mpr hym)
    rw [hyf] at this
    exact Bool.false_ne_true this
  rw [if_neg (by simpa using hne), List.reverse_append, List.reverse_reverse]

lemma mem_trimRightL {x : Char} {l : List Char} (h : x ∈ trimRightL l) : x ∈ l := by
  unfold trimRightL at h
  rw [List.mem_reverse] at h
  have := (List.dropWhile_sublist pyIsSpace).mem h
  rwa [List.mem_reverse] at this

lemma trimRightL_eq_self {l : List Char}
    (h : l.reverse.dropWhile pyIsSpace = l.reverse) : trimRightL l = l := by
  unfold trimRightL
  rw [h, List.reverse_reverse]

lemma tipos_facts :
    ∀ t ∈ TIPOS_DOCUMENTO, pyStripL t.data = t.data ∧ '\n' ∉ t.data := by
  decide

lemma render_data_decomp (tp c d : String) :
    (render_clasificacion (tp, c, d)).data =
      ("TIPO: ".data ++ tp.data)
        ++ '\n' :: (("CONFIANZA: ".data ++ c.data)
          ++ '\n' :: ("DESCRIPCION: ".data ++ d.data)) := by
  unfold render_clasificacion
  simp only [String.data_append, List.append_assoc]
  rfl

lemma linesOf_render (tp c d : String) (htp : '\n' ∉ tp.data)
    (hc : '\n' ∉ c.data) (hd : '\n' ∉ d.data) :
    linesOf (render_clasificacion (tp, c, d)) =
      ["TIPO: ".data ++ tp.data, "CONFIANZA: ".data ++ c.data,
       trimRightL ("DESCRIPCION: ".data ++ d.data)] := by
  have hTnl : '\n' ∉ "TIPO: ".data ++ tp.data := by
    intro hm
    rcases List.mem_append.mp hm with hm | hm
    · exact absurd hm (by decide)
    · exact htp hm
  have hCnl : '\n' ∉ "CONFIANZA: ".data ++ c.data := by
    intro hm
    rcases List.mem_append.mp hm with hm | hm
    · exact absurd hm (by decide)
    · exact hc hm
  have hDnl : '\n' ∉ "DESCRIPCION: ".data ++ d.data := by
    intro hm
    rcases List.mem_append.mp hm with hm | hm
    · exact absurd hm (by decide)
    · exact hd hm
  have hfront : ((render_clasificacion (tp, c, d)).data).dropWhile pyIsSpace =
      (render_clasificacion (tp, c, d)).data := by
    rw [render_data_decomp]
    rfl
  unfold linesOf
  rw [pyStripL_eq_trimRight, hfront, render_data_decomp]
  have hassoc : ("TIPO: ".data ++ tp.data)
        ++ '\n' :: (("CONFIANZA: ".data ++ c.data)
          ++ '\n' :: ("DESCRIPCION: ".data ++ d.data))
      = (("TIPO: ".data ++ tp.data)
          ++ '\n' :: (("CONFIANZA: ".data ++ c.data) ++ ['\n']))
        ++ ("DESCRIPCION: ".data ++ d.data) := by
    simp
  rw [hassoc, trimRightL_append _ _ ⟨'D', by simp, by decide⟩]
  have hassoc2 : (("TIPO: ".data ++ tp.data)
          ++ '\n' :: (("CONFIANZA: ".data ++ c.data) ++ ['\n']))
        ++ trimRightL ("DESCRIPCION: ".data ++ d.data)
      = ("TIPO: ".data ++ tp.data)
          ++ '\n' :: (("CONFIANZA: ".data ++ c.data)
            ++ '\n' :: trimRightL ("DESCRIPCION: ".data ++ d.data)) := by
    simp
  rw [hassoc2, splitOnChar_append_cons _ _ _ hTnl,
    splitOnChar_append_cons _ _ _ hCnl,
    splitOnChar_no_sep _ _ (fun hm => hDnl (mem_trimRightL hm))]

lemma parse_render_roundtrip (tp c d : String) (htp : tp ∈ TIPOS_DOCUMENTO)
    (hc : ConfOk c) (hd1 : '\n' ∉ d.data) (hd2 : pyStripL d.data = d.data) :
    parse_clasificacion (render_clasificacion (tp, c, d)) = (tp, c, d) := by
  obtain ⟨htps, htpn⟩ := tipos_facts tp htp
  obtain ⟨hcs, hcl, hcn⟩ := hc
  have hmkt : String.mk tp.data = tp := rfl
  have hmkc : String.mk c.data = c := rfl
  have hmkd : String.mk d.data = d := rfl
  have hstep3 : ∀ acc : String × String × String,
      parseLine acc (trimRightL ("DESCRIPCION: ".data ++ d.data)) =
        (acc.1, acc.2.1, d) := by
    by_cases hde : d = ""
    · subst hde
      have htr : trimRightL ("DESCRIPCION: ".data ++ ("" : String).data) =
          "DESCRIPCION:".data := by decide
      intro acc
      rw [htr, parseLine_desc_colon]
    · have hpair := (pyStripL_eq_self_iff d.data).mp hd2
      have hwit : ∃ y ∈ d.data, pyIsSpace y = false := by
        rcases dropWhile_eq_self_head hpair.1 with hnil | ⟨ch, t, heq, hch⟩
        · exact absurd (by rw [← hmkd, hnil]) hde
        · exact ⟨ch, by rw [heq]; exact List.mem_cons_self _ _, hch⟩
      have htr : trimRightL ("DESCRIPCION: ".data ++ d.data) =
          "DESCRIPCION: ".data ++ d.data := by
        rw [trimRightL_append _ _ hwit, trimRightL_eq_self hpair.2]
      intro acc
      rw [htr, parseLine_desc_line, hd2, hmkd]
  have hraw : parseRaw (render_clasificacion (tp, c, d)) = (tp, c, d) := by
    unfold parseRaw
    rw [linesOf_render tp c d htpn hcn hd1, List.foldl_cons, parseLine_tipo_line,
      List.foldl_cons, parseLine_conf_line, List.foldl_cons, hstep3,
      List.foldl_nil, htps, hcs, hcl, hmkt, hmkc]
  unfold parse_clasificacion
  rw [hraw]
  simp only
  rw [if_pos htp]

/-- C8 counterexample: `parse_clasificacion` is not idempotent under the
TIPO:/CONFIANZA:/DESCRIPCION: rendering on every parsed record — when the
input has no DESCRIPCION line, the description defaults to the entire raw
input, and a raw input with a newline ("hola\nmundo") re-parses to only
the first of those lines. -/
theorem C8_render_roundtrip_counterexample :
    parse_clasificacion
        (render_clasificacion (parse_clasificacion "hola\nmundo")) ≠
      parse_clasificacion "hola\nmundo" := by
  decide

/-- C8 (amended): `parse_clasificacion` is idempotent on its own
normalized output whenever the parsed record's description is
newline-free and trim-stable (equal to its own strip): rendering such a
record back into the TIPO:/CONFIANZA:/DESCRIPCION: line format and
re-parsing yields the same record.  (The type and confidence fields need
no side condition: the type is always an enumeration member and the
confidence is always trim-stable, lowercase-stable and newline-free.) -/
theorem C8_parse_idempotent (texto : String)
    (hnl : '\n' ∉ (parse_clasificacion texto).2.2.data)
    (hts : pyStrip (parse_clasificacion texto).2.2 =
      (parse_clasificacion texto).2.2) :
    parse_clasificacion (render_clasificacion (parse_clasificacion texto)) =
      parse_clasificacion texto := by
  have h1 := parse_clasificacion_tipo_mem texto
  have h2 := parse_clasificacion_confOk texto
  have hts' : pyStripL (parse_clasificacion texto).2.2.data =
      (parse_clasificacion texto).2.2.data := congrArg String.data hts
  rcases hE : parse_clasificacion texto with ⟨tp, cc, dd⟩
  rw [hE] at h1 h2 hnl hts'
  exact parse_render_roundtrip tp cc dd h1 h2 hnl hts'

/-- Witness for C8 (amended) at the concrete input "TIPO: Factura", whose
parsed record has the newline-free, trim-stable description
"TIPO: Factura" (the raw input itself). -/
theorem C8_parse_idempotent_witness :
    parse_clasificacion
        (render_clasificacion (parse_clasificacion "TIPO: Factura")) =
      parse_clasificacion "TIPO: Factura" :=
  C8_parse_idempotent "TIPO: Factura" (by decide) (by decide)
